import Mathlib

/-!
Shallow embedding of `src/app.py` (Streamlit + LangChain travel-plan demo).

Pure pieces (persona registry, prompt-template construction, response
normalization, the empty-input guard and the error string) are translated
directly.  The external chat-completion client is a parameter of
`generate_plan`: an `Except String`-valued stage models Python exceptions
(the `String` is the exception's textual representation `str(e)`), so that
both a failure while constructing the client and a failure during
`chain.invoke` are representable.  The `@st.cache_resource` memoization of
`get_llm` is modelled as an explicit state machine over an optional cached
handle.
-/

/-- A persona entry of the `PERSONAS` dict: display title and system prompt. -/
structure Persona where
  title : String
  system : String
deriving DecidableEq

/-- `PERSONAS["A"]` from `src/app.py`. -/
def personaA : Persona :=
  { title := "高齢者配慮の国内旅行プランナー",
    system := "あなたは高齢者に配慮した国内旅行の専門プランナーです。ユーザーの希望や体力面を踏まえ、段差回避・休憩頻度・移動の負担を考慮した半日〜1日のプランを、時間順のタイムライン形式で提案してください。提案には以下のセクションを含めます：\n1) 主要動線（移動手段・所要時間）\n2) 観光・立ち寄り（各場所の見どころと滞在目安）\n3) 食事候補（近くの候補を2つまで）\n4) 休憩ポイント（タイミングと目安）\n5) 雨天代替（1案）\n各項目は箇条書きで簡潔に。" }

/-- `PERSONAS["B"]` from `src/app.py`. -/
def personaB : Persona :=
  { title := "費用最適化プランナー（移動効率重視）",
    system := "あなたは費用対効果と移動効率に強い旅行プランナーです。ユーザーの条件から、移動距離短縮とコスト抑制を優先しつつ、満足度の高い半日〜1日のプランを時間順のタイムラインで提案してください。提案には以下のセクションを含めます：\n1) 主要動線（最短ルート・所要時間・概算交通費）\n2) 観光・体験（費用目安と代替案）\n3) 食事候補（価格帯と並びやすさの目安）\n4) 節約Tips（最大3点）\n5) 雨天代替（1案）\n各項目は箇条書きで簡潔に。" }

/-- The `PERSONAS` dict, as an association list preserving insertion order. -/
def PERSONAS : List (String × Persona) := [("A", personaA), ("B", personaB)]

/-- `PERSONAS.get(persona_key, default)`: Python dict lookup with default. -/
def PERSONAS_get (persona_key : String) (default : Persona) : Persona :=
  (PERSONAS.lookup persona_key).getD default

/-- One chat message of the prompt: a (role, content) pair, as in
`ChatPromptTemplate.from_messages`. -/
structure Message where
  role : String
  content : String
deriving DecidableEq

/-- The literal text of the dedented user template before the
`\x7buser_input\x7d` placeholder. -/
def user_template_pre : String :=
  "以下の条件で旅行プランを作成してください。\nユーザー入力:\n"

/-- The literal text of the dedented user template after the
`\x7buser_input\x7d` placeholder. -/
def user_template_suf : String :=
  "\n\n出力要件:\n- 時間順（例: 09:00 出発 → 10:15 到着 → …）\n- 箇条書きを中心に簡潔に\n- 固有名は一般的な観光地に留め、過度な断定は避ける\n- 不明点は仮定を明記\n"

/-- The full dedented user template of `build_chain` (result of
`textwrap.dedent` on the triple-quoted string), with its single
f-string placeholder. -/
def user_template : String :=
  user_template_pre ++ "\x7buser_input\x7d" ++ user_template_suf

/-- Single-pass f-string formatting of `user_template` with
`user_input := user_text`, as performed by `ChatPromptTemplate` at invoke
time: the one placeholder field is replaced by the value, which is inserted
literally (the substituted value is never re-scanned for placeholders). -/
def format_user_message (user_input : String) : String :=
  user_template_pre ++ user_input ++ user_template_suf

/-- Constructor arguments of `ChatOpenAI` in `get_llm`.  The sampling
temperature `0.3` is modelled as the rational `3/10`. -/
structure ChatOpenAIConfig where
  model : String
  temperature : ℚ
deriving DecidableEq

/-- `get_llm` from `src/app.py`: the client configuration it constructs. -/
def get_llm : ChatOpenAIConfig :=
  { model := "gpt-4o-mini", temperature := 3/10 }

/-- `build_chain(persona_key)` from `src/app.py`: resolves the persona with
fallback `PERSONAS["A"]`, and yields the chain `prompt | llm`, modelled as
the function producing the formatted two-message prompt from a `user_input`
value, paired with the (cached) LLM configuration the chain will call. -/
def build_chain (persona_key : String) :
    (String → List Message) × ChatOpenAIConfig :=
  let persona := PERSONAS_get persona_key personaA
  (fun user_input =>
     [ { role := "system", content := persona.system },
       { role := "user", content := format_user_message user_input } ],
   get_llm)

/-- The message list the chain of `build_chain persona_key` sends to the LLM
client when invoked with `\x7b"user_input": user_text\x7d`.  The persona
system strings contain no placeholder, so formatting leaves them unchanged. -/
def prompt_messages (persona_key user_text : String) : List Message :=
  (build_chain persona_key).1 user_text

/-- The client's response object `res`: it may or may not have a textual
`content` attribute, and always has a string representation `str(res)`. -/
structure Response where
  content : Option String
  str : String
deriving DecidableEq

/-- `getattr(res, "content", str(res))` from `generate_plan`. -/
def getattr_content (res : Response) : String :=
  match res.content with
  | some c => c
  | none => res.str

/-- The code points CPython's `str.isspace` recognizes, which is exactly
the character set `str.strip()` with no argument removes: the ASCII
whitespace and separator controls, NEL, NBSP, and the Unicode space
separators up to the ideographic space U+3000. -/
def py_whitespace_codes : List Nat :=
  [0x09, 0x0a, 0x0b, 0x0c, 0x0d, 0x1c, 0x1d, 0x1e, 0x1f, 0x20, 0x85, 0xa0,
   0x1680, 0x2000, 0x2001, 0x2002, 0x2003, 0x2004, 0x2005, 0x2006, 0x2007,
   0x2008, 0x2009, 0x200a, 0x2028, 0x2029, 0x202f, 0x205f, 0x3000]

/-- Python `str.isspace()` on a single character. -/
def py_isspace (c : Char) : Bool :=
  py_whitespace_codes.contains c.toNat

/-- Python `str.strip()`: drops leading and trailing characters of the full
Unicode whitespace set.  Defined structurally on the character list so that
concrete instances evaluate in the kernel. -/
def py_strip (s : String) : String :=
  ⟨((s.data.dropWhile py_isspace).reverse.dropWhile py_isspace).reverse⟩

/-- The fixed localized notice `generate_plan` returns on empty input. -/
def empty_notice : String := "入力が空です。内容を入力してください。"

/-- The fixed Japanese prefix of every error result of `generate_plan`
(`f"エラーが発生しました: \x7be\x7d"` is this prefix followed by `str(e)`). -/
def error_head : String := "エラーが発生しました: "

/-- `generate_plan(user_text, persona_key)` from `src/app.py`.

The external client is the parameter `llm`:
`Except.error e` models an exception raised while `build_chain` constructs
the client (`get_llm()` / `ChatOpenAI(...)`), with `e = str(exception)`;
`Except.ok invoke` is a client whose `invoke` on the formatted messages
either returns a response object or raises.  Both failure points sit inside
the `try`, and both are rendered with `error_head`; the function itself is
total, modelling that no exception propagates to the caller. -/
def generate_plan
    (llm : Except String (List Message → Except String Response))
    (user_text persona_key : String) : String :=
  if py_strip user_text = "" then
    empty_notice
  else
    match llm with
    | Except.error e => error_head ++ e
    | Except.ok invoke =>
      match invoke (prompt_messages persona_key user_text) with
      | Except.ok res => getattr_content res
      | Except.error e => error_head ++ e

/-- One call to the memoized `get_llm` under `@st.cache_resource`: on a
cache miss the handle is constructed and stored, on a hit the stored handle
is returned.  Yields (returned handle, new cache, whether a construction
happened). -/
def get_llm_step (cache : Option ChatOpenAIConfig) :
    ChatOpenAIConfig × Option ChatOpenAIConfig × Bool :=
  match cache with
  | some h => (h, some h, false)
  | none => (get_llm, some get_llm, true)

/-- A sequence of `n` calls to the memoized `get_llm`, starting from a given
cache state.  Yields (handles returned by each call, final cache, number of
constructions performed). -/
def run_get_llm_calls :
    Nat → Option ChatOpenAIConfig →
    List ChatOpenAIConfig × Option ChatOpenAIConfig × Nat
  | 0, cache => ([], cache, 0)
  | Nat.succ n, cache =>
    let r := get_llm_step cache
    let rest := run_get_llm_calls n r.2.1
    (r.1 :: rest.1, rest.2.1, (if r.2.2 then 1 else 0) + rest.2.2)

/-- C1: for every input that is empty or whitespace-only after stripping,
`generate_plan` returns the fixed localized notice for every persona key,
and the result does not depend on the client argument at all — neither the
client construction outcome nor the invocation behaviour is consulted, so
no network call is made. -/
theorem spec_C1
    (llm llm' : Except String (List Message → Except String Response))
    (user_text persona_key persona_key' : String)
    (h : py_strip user_text = "") :
    generate_plan llm user_text persona_key = empty_notice ∧
    generate_plan llm user_text persona_key =
      generate_plan llm' user_text persona_key' := by
  constructor <;> simp [generate_plan, h]

/-- Witness for C1 at a whitespace-only input mixing a space, a tab, the
ideographic space U+3000 and a form feed, with a client that would fail if
consulted. -/
theorem spec_C1_wit :
    py_strip " \t\u3000\x0c" = "" ∧
    generate_plan (Except.error "boom") " \t\u3000\x0c" "Z" = empty_notice :=
  ⟨by decide,
   (spec_C1 (Except.error "boom") (Except.ok fun _ => Except.error "x")
      " \t\u3000\x0c" "Z" "A" (by decide)).1⟩

/-- C2: for every non-empty input, whether the exception is raised during
client construction (`Except.error` client) or during chain invocation
(invoke returns `Except.error`), `generate_plan` returns a string that
contains the exception text as a substring; being a total function, it
never propagates the exception. -/
theorem spec_C2 (e user_text persona_key : String)
    (h : ¬ py_strip user_text = "") :
    (∃ pre suf, generate_plan (Except.error e) user_text persona_key =
        pre ++ e ++ suf) ∧
    (∃ pre suf, generate_plan (Except.ok fun _ => Except.error e)
        user_text persona_key = pre ++ e ++ suf) := by
  refine ⟨⟨error_head, "", ?_⟩, ⟨error_head, "", ?_⟩⟩ <;>
    simp [generate_plan, h]

/-- Witness for C2: a construction failure with message "ConnectionError"
on a concrete non-empty input. -/
theorem spec_C2_wit :
    ¬ py_strip "京都へ行きたい" = "" ∧
    (∃ pre suf, generate_plan (Except.error "ConnectionError")
        "京都へ行きたい" "A" = pre ++ "ConnectionError" ++ suf) :=
  ⟨by decide, (spec_C2 "ConnectionError" "京都へ行きたい" "A" (by decide)).1⟩

/-- C3: every persona key outside the registry's key set resolves to
persona A, so the prompt built for an unknown key coincides with the prompt
built for key "A" on every input; lookup never fails. -/
theorem spec_C3 (persona_key : String)
    (hA : persona_key ≠ "A") (hB : persona_key ≠ "B") :
    PERSONAS_get persona_key personaA = personaA ∧
    ∀ user_text, prompt_messages persona_key user_text =
      prompt_messages "A" user_text := by
  have h1 : (persona_key == "A") = false := beq_eq_false_iff_ne.mpr hA
  have h2 : (persona_key == "B") = false := beq_eq_false_iff_ne.mpr hB
  have hlook : PERSONAS.lookup persona_key = none := by
    simp [PERSONAS, List.lookup, h1, h2]
  constructor
  · simp [PERSONAS_get, hlook]
  · intro user_text
    simp [prompt_messages, build_chain, PERSONAS_get, PERSONAS,
      List.lookup, h1, h2]

/-- Witness for C3 at the unknown key "C". -/
theorem spec_C3_wit :
    ("C" : String) ≠ "A" ∧ ("C" : String) ≠ "B" ∧
    PERSONAS_get "C" personaA = personaA :=
  ⟨by decide, by decide, (spec_C3 "C" (by decide) (by decide)).1⟩

/-- C4: for every response object the client returns on a non-empty input,
`generate_plan` yields `getattr_content`: the textual `content` field when
present, otherwise the stringification of the whole response; in
particular, when the field is present the result is exactly its value. -/
theorem spec_C4 (res : Response) (user_text persona_key : String)
    (h : ¬ py_strip user_text = "") :
    generate_plan (Except.ok fun _ => Except.ok res) user_text persona_key =
      getattr_content res ∧
    (∀ c, res.content = some c →
      generate_plan (Except.ok fun _ => Except.ok res) user_text
        persona_key = c) ∧
    (res.content = none →
      generate_plan (Except.ok fun _ => Except.ok res) user_text
        persona_key = res.str) := by
  refine ⟨by simp [generate_plan, h], ?_, ?_⟩
  · intro c hc
    simp [generate_plan, h, getattr_content, hc]
  · intro hc
    simp [generate_plan, h, getattr_content, hc]

/-- Witness for C4: a mocked client returning a response with a textual
content field yields exactly that field's value. -/
theorem spec_C4_wit :
    ¬ py_strip "箱根 1泊" = "" ∧
    generate_plan
      (Except.ok fun _ => Except.ok ⟨some "プラン本文", "AIMessage"⟩)
      "箱根 1泊" "B" = "プラン本文" :=
  ⟨by decide,
   (spec_C4 ⟨some "プラン本文", "AIMessage"⟩ "箱根 1泊" "B"
      (by decide)).2.1 "プラン本文" rfl⟩

/-- C5: for every non-empty input (curly braces included: substitution is a
single pass inserting the value literally), the prompt contains a user
message whose content is the input sandwiched verbatim between the fixed
template prefix and suffix. -/
theorem spec_C5 (user_text persona_key : String) (h : user_text ≠ "") :
    ∃ msg, msg ∈ prompt_messages persona_key user_text ∧
      msg.role = "user" ∧
      msg.content =
        user_template_pre ++ user_text ++ user_template_suf := by
  refine ⟨{ role := "user", content := format_user_message user_text },
    ?_, rfl, rfl⟩
  simp [prompt_messages, build_chain]

/-- Witness for C5 at an input containing curly braces. -/
theorem spec_C5_wit :
    ("\x7b東京\x7d 半日" : String) ≠ "" ∧
    ∃ msg, msg ∈ prompt_messages "A" "\x7b東京\x7d 半日" ∧
      msg.role = "user" ∧
      msg.content = user_template_pre ++ "\x7b東京\x7d 半日" ++
        user_template_suf :=
  ⟨by decide, spec_C5 "\x7b東京\x7d 半日" "A" (by decide)⟩

/-- C6: for every input, the prompts for keys "A" and "B" are two-message
lists agreeing on the user message (same template, same segment for the
same input) and differing exactly in the system-instruction message. -/
theorem spec_C6 (user_text : String) :
    (prompt_messages "A" user_text).length = 2 ∧
    (prompt_messages "B" user_text).length = 2 ∧
    (prompt_messages "A" user_text).get? 1 =
      (prompt_messages "B" user_text).get? 1 ∧
    (prompt_messages "A" user_text).get? 0 =
      some { role := "system", content := personaA.system } ∧
    (prompt_messages "B" user_text).get? 0 =
      some { role := "system", content := personaB.system } ∧
    personaA.system ≠ personaB.system := by
  refine ⟨?_, ?_, ?_, ?_, ?_, by decide⟩ <;>
    simp [prompt_messages, build_chain, PERSONAS_get, PERSONAS, List.lookup]

/-- Witness for C6 at a concrete input. -/
theorem spec_C6_wit :
    (prompt_messages "A" "温泉").get? 1 =
      (prompt_messages "B" "温泉").get? 1 ∧
    personaA.system ≠ personaB.system :=
  ⟨(spec_C6 "温泉").2.2.1, (spec_C6 "温泉").2.2.2.2.2⟩

/-- C7: the chain built for every persona key carries the one client
configuration `get_llm` constructs, whose sampling temperature is the fixed
constant 3/10, a low value (below 1). -/
theorem spec_C7 (persona_key : String) :
    (build_chain persona_key).2 = get_llm ∧
    get_llm.temperature = 3/10 ∧ get_llm.temperature < 1 :=
  ⟨rfl, rfl, by rw [show get_llm.temperature = 3/10 from rfl]; norm_num⟩

/-- Witness for C7 at key "B". -/
theorem spec_C7_wit :
    (build_chain "B").2 = get_llm ∧
    get_llm.temperature = 3/10 ∧ get_llm.temperature < 1 :=
  spec_C7 "B"

/-- Auxiliary for C8: once the cache holds the handle, further calls
construct nothing, leave the cache unchanged, and all return that handle. -/
theorem run_get_llm_calls_cached (n : Nat) :
    run_get_llm_calls n (some get_llm) =
      (List.replicate n get_llm, some get_llm, 0) := by
  induction n with
  | zero => rfl
  | succ n ih => simp [run_get_llm_calls, get_llm_step, ih, List.replicate]

/-- C8: over any sequence of calls to the memoized `get_llm` starting from
an empty cache, at most one construction happens and every call returns the
same handle `get_llm`; `generate_plan` being a pure function of its
arguments, no other state persists across calls. -/
theorem spec_C8 (n : Nat) :
    (run_get_llm_calls n none).2.2 ≤ 1 ∧
    ∀ h ∈ (run_get_llm_calls n none).1, h = get_llm := by
  cases n with
  | zero =>
    exact ⟨by simp [run_get_llm_calls], by intro h hh; cases hh⟩
  | succ n =>
    have hc := run_get_llm_calls_cached n
    refine ⟨?_, ?_⟩
    · simp [run_get_llm_calls, get_llm_step, hc]
    · intro h hh
      simp only [run_get_llm_calls, get_llm_step, hc, List.mem_cons] at hh
      rcases hh with rfl | hmem
      · rfl
      · exact List.eq_of_mem_replicate hmem

/-- Witness for C8 over three consecutive calls. -/
theorem spec_C8_wit :
    (run_get_llm_calls 3 none).2.2 ≤ 1 ∧
    ∀ h ∈ (run_get_llm_calls 3 none).1, h = get_llm :=
  spec_C8 3

/-- C9: for empty or whitespace-only input, the result of `generate_plan`
is independent of the persona key — any two keys, known or unknown, give
the same notice, because the empty-input check precedes persona
resolution. -/
theorem spec_C9
    (llm : Except String (List Message → Except String Response))
    (user_text k1 k2 : String) (h : py_strip user_text = "") :
    generate_plan llm user_text k1 = generate_plan llm user_text k2 := by
  simp [generate_plan, h]

/-- Witness for C9 at a three-space input and two keys outside the
registry. -/
theorem spec_C9_wit :
    py_strip "   " = "" ∧
    generate_plan (Except.error "e") "   " "X" =
      generate_plan (Except.error "e") "   " "Y" :=
  ⟨by decide, spec_C9 (Except.error "e") "   " "X" "Y" (by decide)⟩

/-- C10: every error result of `generate_plan` — from a construction
failure as from an invocation failure — is exactly the fixed Japanese
prefix followed by the exception text; no other error shape exists. -/
theorem spec_C10 (e user_text persona_key : String)
    (h : ¬ py_strip user_text = "") :
    generate_plan (Except.error e) user_text persona_key =
      "エラーが発生しました: " ++ e ∧
    generate_plan (Except.ok fun _ => Except.error e) user_text
      persona_key = "エラーが発生しました: " ++ e := by
  constructor <;> simp [generate_plan, h, error_head]

/-- Witness for C10 at a concrete exception text and input. -/
theorem spec_C10_wit :
    ¬ py_strip "大阪観光" = "" ∧
    generate_plan (Except.error "AuthError") "大阪観光" "B" =
      "エラーが発生しました: " ++ "AuthError" :=
  ⟨by decide, (spec_C10 "AuthError" "大阪観光" "B" (by decide)).1⟩
